import Mathlib

/-!
# Verification of the step-execution engine core

Shallow embedding of the workflow/step-execution engine found in
`backend/app/core/` (`workflow_engine.py`, `skill_base.py`, `context.py`,
`agent.py`).  Python dictionaries are modelled as insertion-ordered
association lists, Python `datetime` values as a record of numeric fields,
and exceptions as `Except`.  Mutating methods become functions from the old
record to the new one; every call of `datetime.utcnow()` in the source is
modelled by an explicit `now` argument.
-/

set_option maxRecDepth 10000

namespace Engine

/-- Model of a Python runtime value as stored in `input_data`, `output_data`,
`shared_state` and interrupt payloads (`Any` in the source annotations). -/
inductive PyValue where
  | none
  | bool (b : Bool)
  | int (n : Int)
  | str (s : String)
  | dict (entries : List (String × PyValue))

/-- Python `repr` of a value (used for values nested in a dict; string
escaping inside quotes is not modelled, no claim exercises it). -/
def pyRepr : PyValue → String
  | .none => "None"
  | .bool true => "True"
  | .bool false => "False"
  | .int n => toString n
  | .str s => "\x27" ++ s ++ "\x27"
  | .dict es => "\x7b" ++ pyReprEntries es ++ "\x7d"
where
  /-- repr of the comma-separated entries of a dict. -/
  pyReprEntries : List (String × PyValue) → String
  | [] => ""
  | [(k, v)] => "\x27" ++ k ++ "\x27: " ++ pyRepr v
  | (k, v) :: rest => "\x27" ++ k ++ "\x27: " ++ pyRepr v ++ ", " ++ pyReprEntries rest

/-- Python `str()` of a value: the string itself for `str`, `repr` otherwise. -/
def pyStr : PyValue → String
  | .str s => s
  | v => pyRepr v

/-! ## Python dict model: insertion-ordered association lists -/

/-- Model of `d.get(k)` / `d[k]` lookup on a Python dict. -/
def alistGet {α : Type} (d : List (String × α)) (k : String) : Option α :=
  (d.find? (fun e => e.1 = k)).map (fun e => e.2)

/-- Model of `d[k] = v` on a Python dict: update in place if the key exists
(keeping its position), otherwise append at the end. -/
def alistSet {α : Type} : List (String × α) → String → α → List (String × α)
  | [], k, v => [(k, v)]
  | (k', v') :: rest, k, v =>
    if k' = k then (k, v) :: rest else (k', v') :: alistSet rest k v

/-- Apply `f` to the value stored under an existing key `k` (models
`d[k].append(...)` style in-place mutation of a stored value). -/
def alistModify {α : Type} : List (String × α) → String → (α → α) → List (String × α)
  | [], _, _ => []
  | (k', v') :: rest, k, f =>
    if k' = k then (k', f v') :: rest else (k', v') :: alistModify rest k f

/-! ## Python string operations (over `List Char`) -/

/-- Characters stripped by Python `str.strip()` with no argument
(the whitespace reached by the expressions in this code base). -/
def pyIsSpace (c : Char) : Bool :=
  c = ' ' ∨ c = '\t' ∨ c = '\n' ∨ c = '\r'

/-- Model of `str.strip()`: drop leading and trailing whitespace. -/
def pyStripList (cs : List Char) : List Char :=
  ((cs.dropWhile pyIsSpace).reverse.dropWhile pyIsSpace).reverse

/-- Model of `str.strip(chars)`: drop leading and trailing characters in `set`. -/
def pyStripCharsList (set : List Char) (cs : List Char) : List Char :=
  ((cs.dropWhile (set.contains ·)).reverse.dropWhile (set.contains ·)).reverse

/-- Split at the first occurrence of `pat` (Python `s.split(pat, 1)` when
`pat` occurs); `none` when `pat` does not occur in `cs`. -/
def splitOnceList (pat : List Char) : List Char → Option (List Char × List Char)
  | [] => if pat = [] then some ([], []) else Option.none
  | c :: rest =>
    if pat.isPrefixOf (c :: rest) then some ([], (c :: rest).drop pat.length)
    else (splitOnceList pat rest).map (fun p => (c :: p.1, p.2))

/-- Python `pat in s` substring test. -/
def containsSub (pat cs : List Char) : Bool :=
  (splitOnceList pat cs).isSome

/-- Helper for `pyReplaceAllEmpty`: while `skip > 0`, characters still
belong to a matched occurrence and are dropped without rescanning
(Python's replacement scan is left-to-right and non-overlapping). -/
def replEmptyAux (pat : List Char) : List Char → Nat → List Char
  | [], _ => []
  | _ :: rest, skip + 1 => replEmptyAux pat rest skip
  | c :: rest, 0 =>
    if pat ≠ [] ∧ pat.isPrefixOf (c :: rest) then
      replEmptyAux pat rest (pat.length - 1)
    else
      c :: replEmptyAux pat rest 0

/-- Python `s.replace(pat, "")`: remove every (left-to-right, non
overlapping) occurrence of `pat`. -/
def pyReplaceAllEmpty (pat : List Char) (cs : List Char) : List Char :=
  replEmptyAux pat cs 0

/-- The two quote characters stripped from condition values
(`.strip('"\x27')` in the source). -/
def quoteChars : List Char := ['"', Char.ofNat 39]

/-! ## Python `datetime` model -/

/-- Model of a (naive) Python `datetime.datetime` value. -/
structure DTime where
  year : Nat
  month : Nat
  day : Nat
  hour : Nat
  minute : Nat
  second : Nat
  microsecond : Nat
deriving DecidableEq, Repr

/-- The invariant Python's `datetime` constructor enforces on its fields. -/
def DTime.Valid (d : DTime) : Prop :=
  1 ≤ d.year ∧ d.year ≤ 9999 ∧ 1 ≤ d.month ∧ d.month ≤ 12 ∧
  1 ≤ d.day ∧ d.day ≤ 31 ∧ d.hour ≤ 23 ∧ d.minute ≤ 59 ∧
  d.second ≤ 59 ∧ d.microsecond ≤ 999999

instance (d : DTime) : Decidable d.Valid := by
  unfold DTime.Valid; infer_instance

/-- The decimal digit character of `d < 10`, i.e. `chr(48 + d)`
(values of `d` above nine are clamped so the function stays total). -/
def digitChar (d : Nat) : Char :=
  Char.ofNat (48 + min d 9)

/-- Numeric value of a decimal digit character, `none` on anything else. -/
def digitVal? (c : Char) : Option Nat :=
  if 48 ≤ c.toNat ∧ c.toNat ≤ 57 then some (c.toNat - 48) else Option.none

/-- Fixed-width zero-padded decimal digits of `n` (C's `%0wd`, used by
`datetime.isoformat` for every field). -/
def padDigits : Nat → Nat → List Char
  | 0, _ => []
  | w + 1, n => padDigits w (n / 10) ++ [digitChar (n % 10)]

/-- Consume exactly `w` decimal digits, accumulating their value. -/
def parseFixed : Nat → Nat → List Char → Option (Nat × List Char)
  | 0, acc, cs => some (acc, cs)
  | _ + 1, _, [] => Option.none
  | w + 1, acc, c :: cs =>
    match digitVal? c with
    | some d => parseFixed w (acc * 10 + d) cs
    | Option.none => Option.none

/-- Consume one expected character. -/
def expectChar (c : Char) : List Char → Option (List Char)
  | [] => Option.none
  | c' :: rest => if c' = c then some rest else Option.none

/-- Model of `datetime.isoformat()`: `YYYY-MM-DDTHH:MM:SS` followed by `.ffffff`
exactly when the microsecond field is nonzero. -/
def DTime.isoformatList (d : DTime) : List Char :=
  padDigits 4 d.year ++ '-' :: padDigits 2 d.month ++ '-' :: padDigits 2 d.day ++
  'T' :: padDigits 2 d.hour ++ ':' :: padDigits 2 d.minute ++ ':' :: padDigits 2 d.second ++
  (if d.microsecond = 0 then [] else '.' :: padDigits 6 d.microsecond)

/-- Model of `datetime.isoformat()` as a `String`. -/
def DTime.isoformat (d : DTime) : String :=
  String.mk d.isoformatList

/-- Model of `datetime.fromisoformat` restricted to the grammar `isoformat`
produces (which is what `ExecutionContext.from_dict` feeds it);
a malformed string is a parse failure (`ValueError` in Python). -/
def DTime.fromisoformatList (cs : List Char) : Option DTime := do
  let (y, cs) ← parseFixed 4 0 cs
  let cs ← expectChar '-' cs
  let (mo, cs) ← parseFixed 2 0 cs
  let cs ← expectChar '-' cs
  let (dy, cs) ← parseFixed 2 0 cs
  let cs ← expectChar 'T' cs
  let (h, cs) ← parseFixed 2 0 cs
  let cs ← expectChar ':' cs
  let (mi, cs) ← parseFixed 2 0 cs
  let cs ← expectChar ':' cs
  let (s, cs) ← parseFixed 2 0 cs
  match cs with
  | [] => some ⟨y, mo, dy, h, mi, s, 0⟩
  | '.' :: cs =>
    let (us, cs) ← parseFixed 6 0 cs
    if cs = [] then some ⟨y, mo, dy, h, mi, s, us⟩ else Option.none
  | _ => Option.none

/-- Model of `datetime.fromisoformat` on a `String`. -/
def DTime.fromisoformat (s : String) : Option DTime :=
  DTime.fromisoformatList s.data


/-! ## `context.py`: `ExecutionContext` -/

/-- Model of `ExecutionContext` from `app/core/context.py` (a `@dataclass`).
`step_history` entries are the `{"step": ..., "timestamp": ...}` dicts
appended by `add_step`; dict-valued fields are insertion-ordered
association lists. -/
structure ExecutionContext where
  workflow_id : String
  execution_id : String
  user_id : Option Int := Option.none
  current_step : Option String := Option.none
  step_history : List (String × String) := []
  input_data : List (String × PyValue) := []
  output_data : List (String × PyValue) := []
  shared_state : List (String × PyValue) := []
  started_at : DTime
  updated_at : DTime
  completed_at : Option DTime := Option.none
  status : String := "running"
  error_message : Option String := Option.none
  error_stack : Option String := Option.none
  interrupted : Bool := false
  interrupt_reason : Option String := Option.none
  metrics : List (String × Int) := []

/-- Model of `update_timestamp`: `self.updated_at = datetime.utcnow()`. -/
def ExecutionContext.update_timestamp (ctx : ExecutionContext) (now : DTime) :
    ExecutionContext :=
  { ctx with updated_at := now }

/-- Model of `add_step(step_name)`: append a history entry and set `current_step`. -/
def ExecutionContext.add_step (ctx : ExecutionContext) (step_name : String)
    (now : DTime) : ExecutionContext :=
  { ctx with
    step_history := ctx.step_history ++ [(step_name, now.isoformat)]
    current_step := some step_name
    updated_at := now }

/-- Model of `set_input(key, value)`. -/
def ExecutionContext.set_input (ctx : ExecutionContext) (key : String)
    (value : PyValue) (now : DTime) : ExecutionContext :=
  { ctx with input_data := alistSet ctx.input_data key value, updated_at := now }

/-- Model of `set_output(key, value)`. -/
def ExecutionContext.set_output (ctx : ExecutionContext) (key : String)
    (value : PyValue) (now : DTime) : ExecutionContext :=
  { ctx with output_data := alistSet ctx.output_data key value, updated_at := now }

/-- Model of `set_state(key, value)`. -/
def ExecutionContext.set_state (ctx : ExecutionContext) (key : String)
    (value : PyValue) (now : DTime) : ExecutionContext :=
  { ctx with shared_state := alistSet ctx.shared_state key value, updated_at := now }

/-- Model of `get_state(key, default=None)`: absent keys return the default. -/
def ExecutionContext.get_state (ctx : ExecutionContext) (key : String)
    (dflt : PyValue) : PyValue :=
  (alistGet ctx.shared_state key).getD dflt

/-- Model of `set_error(message, stack=None)`. -/
def ExecutionContext.set_error (ctx : ExecutionContext) (message : String)
    (stack : Option String) (now : DTime) : ExecutionContext :=
  { ctx with
    status := "failed", error_message := some message, error_stack := stack
    updated_at := now }

/-- Model of `complete()`. -/
def ExecutionContext.complete (ctx : ExecutionContext) (now : DTime) :
    ExecutionContext :=
  { ctx with status := "completed", completed_at := some now, updated_at := now }

/-- Model of `pause(reason=None)`. -/
def ExecutionContext.pause (ctx : ExecutionContext) (reason : Option String)
    (now : DTime) : ExecutionContext :=
  { ctx with
    status := "paused", interrupted := true, interrupt_reason := reason
    updated_at := now }

/-- Model of `resume()`. -/
def ExecutionContext.resume (ctx : ExecutionContext) (now : DTime) :
    ExecutionContext :=
  { ctx with
    status := "running", interrupted := false, interrupt_reason := Option.none
    updated_at := now }

/-! ### Context serialization: `to_dict` / `from_dict` -/

/-- The image of `ExecutionContext.to_dict`: `asdict(self)` with every
top-level `datetime` value replaced by its ISO string. -/
structure ContextDict where
  workflow_id : String
  execution_id : String
  user_id : Option Int
  current_step : Option String
  step_history : List (String × String)
  input_data : List (String × PyValue)
  output_data : List (String × PyValue)
  shared_state : List (String × PyValue)
  started_at : String
  updated_at : String
  completed_at : Option String
  status : String
  error_message : Option String
  error_stack : Option String
  interrupted : Bool
  interrupt_reason : Option String
  metrics : List (String × Int)

/-- Model of `to_dict()`: `asdict` plus datetime → ISO-string conversion at the
top level (`completed_at` may be `None` and is then left as `None`). -/
def ExecutionContext.to_dict (ctx : ExecutionContext) : ContextDict :=
  { workflow_id := ctx.workflow_id
    execution_id := ctx.execution_id
    user_id := ctx.user_id
    current_step := ctx.current_step
    step_history := ctx.step_history
    input_data := ctx.input_data
    output_data := ctx.output_data
    shared_state := ctx.shared_state
    started_at := ctx.started_at.isoformat
    updated_at := ctx.updated_at.isoformat
    completed_at := ctx.completed_at.map DTime.isoformat
    status := ctx.status
    error_message := ctx.error_message
    error_stack := ctx.error_stack
    interrupted := ctx.interrupted
    interrupt_reason := ctx.interrupt_reason
    metrics := ctx.metrics }

/-- Model of `from_dict(data)`: parse the three datetime keys back with
`datetime.fromisoformat` and rebuild the dataclass.  A `ValueError`
from `fromisoformat` is modelled as `none`; the source's truthiness
guard `data.get(key)` skips empty strings, which would leave a `str`
in a datetime-typed field — ISO strings are never empty, and that
ill-typed escape is also modelled as `none`. -/
def ExecutionContext.from_dict (d : ContextDict) : Option ExecutionContext := do
  let started ← if d.started_at = "" then Option.none
    else DTime.fromisoformat d.started_at
  let updated ← if d.updated_at = "" then Option.none
    else DTime.fromisoformat d.updated_at
  let completed ← match d.completed_at with
    | Option.none => some Option.none
    | some s =>
      if s = "" then Option.none else (DTime.fromisoformat s).map some
  some
    { workflow_id := d.workflow_id
      execution_id := d.execution_id
      user_id := d.user_id
      current_step := d.current_step
      step_history := d.step_history
      input_data := d.input_data
      output_data := d.output_data
      shared_state := d.shared_state
      started_at := started
      updated_at := updated
      completed_at := completed
      status := d.status
      error_message := d.error_message
      error_stack := d.error_stack
      interrupted := d.interrupted
      interrupt_reason := d.interrupt_reason
      metrics := d.metrics }

/-! ## `workflow_engine.py`: condition evaluation (`_evaluate_condition`) -/

/-- The pattern `"=="`. -/
def eqPat : List Char := "==".data

/-- The pattern `"!="`. -/
def nePat : List Char := "!=".data

/-- The pattern `" in "`. -/
def inPat : List Char := " in ".data

/-- The pattern `" contains "`. -/
def containsPat : List Char := " contains ".data

/-- The pattern `"state."`. -/
def statePat : List Char := "state.".data

/-- Model of `key.strip().replace("state.", "")` applied to the key side. -/
def condKey (k : List Char) : String :=
  String.mk (pyReplaceAllEmpty statePat (pyStripList k))

/-- Model of `value.strip().strip('"\x27')` applied to the value side. -/
def condValue (v : List Char) : String :=
  String.mk (pyStripCharsList quoteChars (pyStripList v))

/-- Model of `WorkflowEngine._evaluate_condition(expression, context)`.

The source wraps the whole body in `try/except Exception: return False`
and ends with `return False`, so the function is total and never raises;
every unmatched shape lands on `false`. -/
def evaluate_condition (expression : String) (context : ExecutionContext) : Bool :=
  let expr := pyStripList expression.data
  if containsSub eqPat expr then
    match splitOnceList eqPat expr with
    | some (k, v) =>
      pyStr (context.get_state (condKey k) PyValue.none) == condValue v
    | Option.none => false
  else if containsSub nePat expr then
    match splitOnceList nePat expr with
    | some (k, v) =>
      !(pyStr (context.get_state (condKey k) PyValue.none) == condValue v)
    | Option.none => false
  else if containsSub inPat expr then
    match splitOnceList inPat expr with
    | some (k, rest) =>
      let inner := ((pyStripList rest).drop 1).dropLast
      let values := (inner.splitOn ',').map condValue
      values.contains (pyStr (context.get_state (condKey k) PyValue.none))
    | Option.none => false
  else if containsSub containsPat expr then
    match splitOnceList containsPat expr with
    | some (k, v) =>
      containsSub (condValue v).data
        (pyStr (context.get_state (condKey k) (PyValue.str ""))).data
    | Option.none => false
  else false

/-! ## `skill_base.py`: the unit-of-work contract -/

/-- Model of a configured skill (a `BaseSkill` subclass instance).
`execute` is the abstract method subclasses implement; the attempt
index models the outcome of the i-th invocation of a possibly
side-effecting unit of work (`Except.error` = the call raises).
`run_times_out` models whether awaiting `run` under `asyncio.wait_for`
exceeds the deadline — real time is outside the embedding, so it is a
model parameter of the skill.  Per-instance bookkeeping fields
(`_status`, `_start_time`, `_end_time`, `_error`) are write-only in the
engine's behavior and are not modelled. -/
structure SkillModel where
  name : String
  input_schema : List (String × Bool) := []
  output_schema : List (String × Bool) := []
  timeout : Nat := 300
  retry_count : Nat := 3
  retry_delay : Nat := 1
  execute : Nat → Except String (List (String × PyValue))
  run_times_out : Bool := false

/-- Model of `validate_input`: every schema field marked required must be present
(`input_schema` entries model `{"field": {"required": flag}}`). -/
def SkillModel.validate_input (s : SkillModel) (data : List (String × PyValue)) : Bool :=
  s.input_schema.all (fun e => !e.2 || (alistGet data e.1).isSome)

/-- Model of `validate_output`, same shape as `validate_input`. -/
def SkillModel.validate_output (s : SkillModel) (data : List (String × PyValue)) : Bool :=
  s.output_schema.all (fun e => !e.2 || (alistGet data e.1).isSome)

/-- Model of `on_start`: history entry `{name}_start`. -/
def SkillModel.on_start (s : SkillModel) (ctx : ExecutionContext) (now : DTime) :
    ExecutionContext :=
  ctx.add_step (s.name ++ "_start") now

/-- Model of `on_success`: history entry `{name}_success`. -/
def SkillModel.on_success (s : SkillModel) (ctx : ExecutionContext) (now : DTime) :
    ExecutionContext :=
  ctx.add_step (s.name ++ "_success") now

/-- Model of `on_failure`: history entry `{name}_failed`, then
`context.set_error("Skill {name} failed: {error}", None)`
(`settings.DEBUG` defaults to `False` in `app/config.py`, so no
traceback is attached). -/
def SkillModel.on_failure (s : SkillModel) (error : String) (ctx : ExecutionContext)
    (now : DTime) : ExecutionContext :=
  (ctx.add_step (s.name ++ "_failed") now).set_error
    ("Skill " ++ s.name ++ " failed: " ++ error) Option.none now

/-- Observable outcome of `BaseSkill.run`: the returned output or the
re-raised exception, the number of `execute` invocations, the list of
backoff sleeps performed (in seconds, in order), and the mutated context. -/
structure RunOutcome where
  result : Except String (List (String × PyValue))
  attempts : Nat
  sleeps : List Nat
  ctx : ExecutionContext

/-- The `for attempt in range(self.retry_count + 1)` loop of
`BaseSkill.run`.  `fuel` is the number of remaining loop iterations
(`retry_count + 1` at the top); the fuel-exhausted case models the
`raise last_error` fallthrough after the loop ("should never reach
here" in the source). -/
def runAttemptLoop (s : SkillModel) (now : DTime) :
    ExecutionContext → Nat → Nat → Option String → RunOutcome
  | ctx, _, 0, last_error =>
    ⟨.error (last_error.getD "Skill execution failed"), 0, [], ctx⟩
  | ctx, attempt, fuel + 1, _ =>
    match s.execute attempt with
    | .ok output =>
      if s.validate_output output then
        ⟨.ok output, 1, [], s.on_success ctx now⟩
      else
        -- `raise ValueError(...)` caught by the same `except` clause
        let m := "Invalid output from skill " ++ s.name
        if attempt < s.retry_count then
          let rest := runAttemptLoop s now ctx (attempt + 1) fuel (some m)
          ⟨rest.result, rest.attempts + 1, s.retry_delay * 2 ^ attempt :: rest.sleeps, rest.ctx⟩
        else
          ⟨.error m, 1, [], s.on_failure m ctx now⟩
    | .error m =>
      if attempt < s.retry_count then
        let rest := runAttemptLoop s now ctx (attempt + 1) fuel (some m)
        ⟨rest.result, rest.attempts + 1, s.retry_delay * 2 ^ attempt :: rest.sleeps, rest.ctx⟩
      else
        ⟨.error m, 1, [], s.on_failure m ctx now⟩

/-- Model of `BaseSkill.run(context)`: input validation (raising before any
attempt), `on_start`, then the retry loop. -/
def SkillModel.run (s : SkillModel) (ctx : ExecutionContext) (now : DTime) : RunOutcome :=
  if !(s.validate_input ctx.input_data) then
    ⟨.error ("Invalid input for skill " ++ s.name), 0, [], ctx⟩
  else
    runAttemptLoop s now (s.on_start ctx now) 0 (s.retry_count + 1) Option.none

/-- Model of `SkillRegistry.get(name)` over an explicit registry state (the
source keeps the registry in a class-level global dict). -/
def registryGet (reg : List (String × SkillModel)) (name : String) : Option SkillModel :=
  alistGet reg name

/-- Model of `SkillRegistry.create_instance(name, config)`: look the class up and
instantiate it.  A `SkillModel` already describes the configured
instance, so instantiation returns it unchanged. -/
def createInstance (reg : List (String × SkillModel)) (name : String)
    (_config : List (String × PyValue)) : Option SkillModel :=
  registryGet reg name

/-! ## `workflow_engine.py`: definitions and the run engine -/

/-- Model of `WorkflowStatus` enum. -/
inductive WorkflowStatus where
  | pending | running | paused | completed | failed | cancelled
deriving DecidableEq, Repr

/-- Conversion `.value` of the status enum. -/
def WorkflowStatus.value : WorkflowStatus → String
  | .pending => "pending"
  | .running => "running"
  | .paused => "paused"
  | .completed => "completed"
  | .failed => "failed"
  | .cancelled => "cancelled"

/-- Model of `StepCondition` enum. -/
inductive StepCondition where
  | always | on_success | on_failure | on_skip | custom
deriving DecidableEq, Repr

/-- Model of `StepDefinition` dataclass. -/
structure StepDefinition where
  name : String
  skill_name : String
  config : List (String × PyValue) := []
  condition : StepCondition := .always
  condition_expression : Option String := Option.none
  retry_on_failure : Bool := true
  max_retries : Nat := 3
  timeout : Option Nat := Option.none
  on_failure_action : Option String := Option.none

/-- Model of `Transition` dataclass. -/
structure Transition where
  from_step : String
  to_step : String
  condition : Option String := Option.none

/-- Model of `WorkflowDefinition` dataclass. -/
structure WorkflowDefinition where
  name : String
  description : String
  version : String := "1.0.0"
  steps : List StepDefinition := []
  transitions : List Transition := []
  variables_ : List (String × PyValue) := []
  metadata : List (String × PyValue) := []

/-- Model of `WorkflowExecution`.  `status_history` is ghost instrumentation
recording every assignment to `self.status` in order, so that theorems
can talk about revisited states; it has no counterpart in the source
and influences nothing. -/
structure WorkflowExecution where
  execution_id : String
  workflow : WorkflowDefinition
  context : ExecutionContext
  status : WorkflowStatus := .pending
  current_step : Option String := Option.none
  completed_steps : List String := []
  failed_steps : List String := []
  paused_steps : List String := []
  started_at : Option DTime := Option.none
  completed_at : Option DTime := Option.none
  error_message : Option String := Option.none
  error_stack : Option String := Option.none
  pause_event : Bool := false
  cancel_event : Bool := false
  status_history : List WorkflowStatus := [.pending]

/-- Model of `WorkflowExecution.__init__`: fresh context seeded from
`initial_state` (`user_id`, `input_data`, `shared_state`). -/
structure InitState where
  user_id : Option Int := Option.none
  input_data : List (String × PyValue) := []
  shared_state : List (String × PyValue) := []

/-- Build a `WorkflowExecution` as `__init__` does. -/
def WorkflowExecution.make (execution_id : String) (workflow : WorkflowDefinition)
    (initial_state : InitState) (now : DTime) : WorkflowExecution :=
  { execution_id := execution_id
    workflow := workflow
    context :=
      { workflow_id := workflow.name
        execution_id := execution_id
        user_id := initial_state.user_id
        input_data := initial_state.input_data
        shared_state := initial_state.shared_state
        started_at := now
        updated_at := now } }

/-- Model of `start()`. -/
def WorkflowExecution.start (ex : WorkflowExecution) (now : DTime) : WorkflowExecution :=
  { ex with status := .running, started_at := some now
            status_history := ex.status_history ++ [.running] }

/-- Model of `complete()` (also completes the context). -/
def WorkflowExecution.complete (ex : WorkflowExecution) (now : DTime) : WorkflowExecution :=
  { ex with status := .completed, completed_at := some now
            context := ex.context.complete now
            status_history := ex.status_history ++ [.completed] }

/-- Model of `fail(error, stack)` (also sets the context error). -/
def WorkflowExecution.fail (ex : WorkflowExecution) (error : String)
    (stack : Option String) (now : DTime) : WorkflowExecution :=
  { ex with status := .failed, error_message := some error, error_stack := stack
            context := ex.context.set_error error stack now
            status_history := ex.status_history ++ [.failed] }

/-- Model of `pause()` (pauses the context with `reason=None`). -/
def WorkflowExecution.pause (ex : WorkflowExecution) (now : DTime) : WorkflowExecution :=
  { ex with status := .paused, context := ex.context.pause Option.none now
            status_history := ex.status_history ++ [.paused] }

/-- Model of `resume()` (resumes the context and sets the resume signal). -/
def WorkflowExecution.resume (ex : WorkflowExecution) (now : DTime) : WorkflowExecution :=
  { ex with status := .running, context := ex.context.resume now, pause_event := true
            status_history := ex.status_history ++ [.running] }

/-- Model of `cancel()` (sets the cancellation flag; the context is untouched). -/
def WorkflowExecution.cancel (ex : WorkflowExecution) : WorkflowExecution :=
  { ex with status := .cancelled, cancel_event := true
            status_history := ex.status_history ++ [.cancelled] }

/-- Engine state: the `_executions` table.  (`_callbacks` only schedules
fire-and-forget notification tasks and is dropped; `checkpoint_saver`
is never consulted by `execute`.) -/
structure WorkflowEngineSt where
  executions : List (String × WorkflowExecution) := []

/-- Model of `WorkflowEngine.validate_definition`. -/
def validate_definition (reg : List (String × SkillModel))
    (workflow : WorkflowDefinition) : List String :=
  let skillErrors := workflow.steps.filterMap (fun step =>
    if (registryGet reg step.skill_name).isNone then
      some ("Step \x27" ++ step.name ++ "\x27 references unknown skill \x27" ++
        step.skill_name ++ "\x27")
    else Option.none)
  let step_names := workflow.steps.map (fun s => s.name)
  let uniqueErrors :=
    if step_names.length ≠ step_names.dedup.length then ["Step names must be unique"] else []
  let names_set := step_names ++ ["START", "END"]
  let transitionErrors := workflow.transitions.flatMap (fun t =>
    (if !(names_set.contains t.from_step) then
      ["Transition from unknown step \x27" ++ t.from_step ++ "\x27"] else []) ++
    (if !(names_set.contains t.to_step) ∧ t.to_step ≠ "END" then
      ["Transition to unknown step \x27" ++ t.to_step ++ "\x27"] else []))
  skillErrors ++ uniqueErrors ++ transitionErrors

/-- Model of `step_map = {s.name: s for s in workflow.steps}`. -/
def buildStepMap (steps : List StepDefinition) : List (String × StepDefinition) :=
  steps.foldl (fun m s => alistSet m s.name s) []

/-- The `transition_map : Dict[str, List[str]]` built in `execute`:
every step name maps to `[]`, then each transition appends its
`to_step` *string* under `from_step`. -/
def buildTransitionMap (steps : List StepDefinition) (transitions : List Transition) :
    List (String × List String) :=
  let m := steps.foldl (fun m s => alistSet m s.name ([] : List String)) []
  transitions.foldl (fun m t =>
    let m := if (alistGet m t.from_step).isNone then alistSet m t.from_step [] else m
    alistModify m t.from_step (fun l => l ++ [t.to_step])) m

/-- Model of `WorkflowEngine._should_execute_step`. -/
def should_execute_step (step : StepDefinition) (ex : WorkflowExecution) : Bool :=
  match step.condition with
  | .always => true
  | .on_success => !ex.completed_steps.isEmpty
  | .on_failure => !ex.failed_steps.isEmpty
  | .on_skip => !ex.paused_steps.isEmpty
  | .custom =>
    match step.condition_expression with
    | some e => if e ≠ "" then evaluate_condition e ex.context else true
    | Option.none => true

/-- The attribute access `transition.condition` performed by
`_get_next_step` on the elements of `transition_map[current_step]` —
which are the plain `to_step` strings the map was built from (its own
annotation is `Dict[str, List[str]]`), so the access raises
`AttributeError`. -/
def strAttrCondition (_s : String) : Except String PyValue :=
  .error "\x27str\x27 object has no attribute \x27condition\x27"

/-- Model of `WorkflowEngine._get_next_step`: loop over
`transition_map.get(current_step, [])`; the first iteration evaluates
`transition.condition` on a string and raises; an empty transition
list returns `None` (end of workflow). -/
def get_next_step (current_step : String)
    (transition_map : List (String × List String)) (_context : ExecutionContext) :
    Except String (Option String) :=
  match (alistGet transition_map current_step).getD [] with
  | [] => .ok Option.none
  | t :: _ =>
    match strAttrCondition t with
    | .error m => .error m
    | .ok _ => .ok Option.none

/-- Events yielded by `WorkflowEngine.execute` (`"type"` plus payload).
The `error` shape appears with an `errors` list from validation
(`error_list`) and with a single `error` string elsewhere (`error_evt`). -/
inductive Event where
  | error_list (execution_id : String) (errors : List String)
  | started (execution_id status : String)
  | cancelled (execution_id status : String)
  | step_skipped (execution_id step : String)
  | step_started (execution_id step skill : String)
  | step_completed (execution_id step : String) (output : List (String × PyValue))
  | step_timeout (execution_id step : String)
  | step_failed (execution_id step error : String)
  | paused (execution_id : String) (step : Option String) (status : String)
  | resumed (execution_id : String) (step : Option String) (status : String)
  | completed (execution_id status : String) (context : ContextDict)
  | error_evt (execution_id error : String)

/-- External-signal schedule (the model of concurrent orchestrator
calls): `cancelAt i` delivers a `cancel_execution` call just before
loop iteration `i`; `pauseAt i` delivers a `pause_execution` call at
the post-step pause check of iteration `i` (the two program points
where the loop observes these signals). -/
structure Schedule where
  cancelAt : Nat → Bool := fun _ => false
  pauseAt : Nat → Bool := fun _ => false

/-- How the `while` loop ended. -/
inductive LoopExit where
  | finished
  | raised (msg : String)
  | fuelOut
deriving DecidableEq, Repr

/-- Control outcome of one loop iteration body. -/
inductive IterControl where
  | exitLoop (e : LoopExit)
  | nextIter (next : Option String) (skipPause : Bool)

/-- The `while current_step_name:` loop of `WorkflowEngine.execute`.
`fuel` bounds the number of iterations (the loop can run forever in the
source, e.g. a failing step with no `on_failure_action`); `i` is the
iteration index consumed by the schedule.  Returns the yielded events,
the final execution object, and how the loop ended. -/
def execLoop (reg : List (String × SkillModel)) (eid : String)
    (step_map : List (String × StepDefinition))
    (transition_map : List (String × List String))
    (sched : Schedule) (now : DTime) :
    Nat → Nat → Option String → WorkflowExecution →
    List Event × WorkflowExecution × LoopExit
  | _, _, Option.none, ex => ([], ex, .finished)
  | 0, _, some _, ex => ([], ex, .fuelOut)
  | fuel + 1, i, some cur, ex =>
    -- external cancel_execution delivered before this iteration
    let ex := if sched.cancelAt i then ex.cancel else ex
    if ex.cancel_event then
      let ex := ex.cancel
      ([.cancelled eid ex.status.value], ex, .finished)
    else
      match alistGet step_map cur with
      | Option.none => ([], ex, .finished)
      | some step =>
        let ex := { ex with current_step := some cur }
        let body : List Event × WorkflowExecution × IterControl :=
          if !(should_execute_step step ex) then
            let ex := { ex with paused_steps := ex.paused_steps ++ [cur] }
            match get_next_step cur transition_map ex.context with
            | .error m => ([.step_skipped eid cur], ex, .exitLoop (.raised m))
            | .ok next => ([.step_skipped eid cur], ex, .nextIter next true)
          else
            let ev0 := Event.step_started eid cur step.skill_name
            match createInstance reg step.skill_name step.config with
            | Option.none =>
              let msg := "Skill \x27" ++ step.skill_name ++ "\x27 not found"
              ([ev0, .error_evt eid msg], ex.fail msg Option.none now,
                .exitLoop .finished)
            | some skill =>
              if skill.run_times_out then
                -- asyncio.TimeoutError branch (context effects of the
                -- cancelled coroutine are not modelled)
                let ex := { ex with failed_steps := ex.failed_steps ++ [cur] }
                let evs := [ev0, Event.step_timeout eid cur]
                if step.on_failure_action = some "stop" then
                  (evs, ex.fail ("Step \x27" ++ cur ++ "\x27 timed out") Option.none now,
                    .exitLoop .finished)
                else if step.on_failure_action = some "skip" then
                  match get_next_step cur transition_map ex.context with
                  | .error m => (evs, ex, .exitLoop (.raised m))
                  | .ok next => (evs, ex, .nextIter next false)
                else
                  (evs, ex, .nextIter (some cur) false)
              else
                let r := skill.run ex.context now
                let ex := { ex with context := r.ctx }
                match r.result with
                | .ok output =>
                  let ex := { ex with
                    context := ex.context.set_output cur (.dict output) now
                    completed_steps := ex.completed_steps ++ [cur] }
                  let evs := [ev0, Event.step_completed eid cur output]
                  -- `_get_next_step` is called inside the `try:`; its
                  -- AttributeError is caught by `except Exception`
                  match get_next_step cur transition_map ex.context with
                  | .ok next => (evs, ex, .nextIter next false)
                  | .error m =>
                    let ex := { ex with failed_steps := ex.failed_steps ++ [cur] }
                    let evs := evs ++ [Event.step_failed eid cur m]
                    if step.on_failure_action = some "stop" then
                      (evs, ex.fail m Option.none now, .exitLoop .finished)
                    else if step.on_failure_action = some "skip" then
                      match get_next_step cur transition_map ex.context with
                      | .error m2 => (evs, ex, .exitLoop (.raised m2))
                      | .ok next => (evs, ex, .nextIter next false)
                    else
                      (evs, ex, .nextIter (some cur) false)
                | .error m =>
                  let ex := { ex with failed_steps := ex.failed_steps ++ [cur] }
                  let evs := [ev0, Event.step_failed eid cur m]
                  if step.on_failure_action = some "stop" then
                    (evs, ex.fail m Option.none now, .exitLoop .finished)
                  else if step.on_failure_action = some "skip" then
                    match get_next_step cur transition_map ex.context with
                    | .error m2 => (evs, ex, .exitLoop (.raised m2))
                    | .ok next => (evs, ex, .nextIter next false)
                  else
                    (evs, ex, .nextIter (some cur) false)
        match body with
        | (evs, ex, .exitLoop e) => (evs, ex, e)
        | (evs, ex, .nextIter next skipPause) =>
          if skipPause then
            let (evs2, ex2, e2) :=
              execLoop reg eid step_map transition_map sched now fuel (i + 1) next ex
            (evs ++ evs2, ex2, e2)
          else
            -- external pause_execution delivered at the pause check
            let ex := if sched.pauseAt i then ex.pause now else ex
            if ex.status = .paused then
              let evs := evs ++ [Event.paused eid next ex.status.value]
              -- wait_for_resume: the external resume_execution arrives
              let ex := ex.resume now
              let evs := evs ++ [Event.resumed eid next ex.status.value]
              let (evs2, ex2, e2) :=
                execLoop reg eid step_map transition_map sched now fuel (i + 1) next ex
              (evs ++ evs2, ex2, e2)
            else
              let (evs2, ex2, e2) :=
                execLoop reg eid step_map transition_map sched now fuel (i + 1) next ex
              (evs ++ evs2, ex2, e2)

/-- Model of `WorkflowEngine.execute`: validation short-circuit, run creation and
registration, the loop, then the unconditional `execution.complete()`
on every non-exception loop exit, or `execution.fail` plus an `error`
event when the loop body raised. -/
def WorkflowEngine.execute (st : WorkflowEngineSt) (reg : List (String × SkillModel))
    (workflow : WorkflowDefinition) (initial_state : InitState) (execution_id : String)
    (sched : Schedule) (now : DTime) (fuel : Nat) :
    List Event × WorkflowEngineSt × LoopExit :=
  let errors := validate_definition reg workflow
  if errors ≠ [] then
    ([.error_list execution_id errors], st, .finished)
  else
    let ex := WorkflowExecution.make execution_id workflow initial_state now
    let step_map := buildStepMap workflow.steps
    let transition_map := buildTransitionMap workflow.steps workflow.transitions
    let ex := ex.start now
    let ev0 := Event.started execution_id ex.status.value
    let first := workflow.steps.head?.map (fun s => s.name)
    let (evs, ex, exit) :=
      execLoop reg execution_id step_map transition_map sched now fuel 0 first ex
    match exit with
    | .fuelOut =>
      (ev0 :: evs, { st with executions := alistSet st.executions execution_id ex }, .fuelOut)
    | .raised m =>
      let ex := ex.fail m Option.none now
      (ev0 :: evs ++ [.error_evt execution_id m],
        { st with executions := alistSet st.executions execution_id ex }, .finished)
    | .finished =>
      let ex := ex.complete now
      (ev0 :: evs ++ [.completed execution_id ex.status.value ex.context.to_dict],
        { st with executions := alistSet st.executions execution_id ex }, .finished)

/-- Model of `WorkflowEngine.pause_execution(execution_id)`. -/
def WorkflowEngine.pause_execution (st : WorkflowEngineSt) (execution_id : String)
    (now : DTime) : WorkflowEngineSt :=
  match alistGet st.executions execution_id with
  | Option.none => st
  | some ex => { st with executions := alistSet st.executions execution_id (ex.pause now) }

/-- Model of `WorkflowEngine.resume_execution(execution_id)`. -/
def WorkflowEngine.resume_execution (st : WorkflowEngineSt) (execution_id : String)
    (now : DTime) : WorkflowEngineSt :=
  match alistGet st.executions execution_id with
  | Option.none => st
  | some ex => { st with executions := alistSet st.executions execution_id (ex.resume now) }

/-- Model of `WorkflowEngine.cancel_execution(execution_id)`. -/
def WorkflowEngine.cancel_execution (st : WorkflowEngineSt) (execution_id : String)
    (_now : DTime) : WorkflowEngineSt :=
  match alistGet st.executions execution_id with
  | Option.none => st
  | some ex => { st with executions := alistSet st.executions execution_id ex.cancel }

/-! ## `agent.py`: `AgentOrchestrator.handle_interrupt` -/

/-- Return value of `handle_interrupt`. -/
structure InterruptResult where
  success : Bool
  status : Option String := Option.none
  context : Option ContextDict := Option.none
  error : Option String := Option.none

/-- Model of `AgentOrchestrator.handle_interrupt(execution_id, action, data)`.
The orchestrator delegates pause/resume/cancel to the engine; the
`takeover` branch acts on the execution object directly — its first
statement is `execution.pause("manual_takeover")`, but
`WorkflowExecution.pause` accepts no reason argument (only
`ExecutionContext.pause` does), so that call raises `TypeError`
before any effect; `handle_interrupt` has no exception handler, so
the error propagates (`Except.error`) with the state unchanged. -/
def handle_interrupt (st : WorkflowEngineSt) (execution_id action : String)
    (data : Option (List (String × PyValue))) (now : DTime) :
    WorkflowEngineSt × Except String InterruptResult :=
  match alistGet st.executions execution_id with
  | Option.none => (st, .ok { success := false, error := some "Execution not found" })
  | some ex =>
    if action = "pause" then
      (WorkflowEngine.pause_execution st execution_id now,
        .ok { success := true, status := some "paused" })
    else if action = "resume" then
      (WorkflowEngine.resume_execution st execution_id now,
        .ok { success := true, status := some "resumed" })
    else if action = "cancel" then
      (WorkflowEngine.cancel_execution st execution_id now,
        .ok { success := true, status := some "cancelled" })
    else if action = "takeover" then
      (st, .error "TypeError: pause() takes 1 positional argument but 2 were given")
    else if action = "update_state" then
      let ex :=
        match data with
        | some d =>
          if !d.isEmpty then
            let c2 := d.foldl (fun c e => c.set_state e.1 e.2 now) ex.context
            { ex with context := c2 }
          else ex
        | Option.none => ex
      ({ st with executions := alistSet st.executions execution_id ex },
        .ok { success := true })
    else
      (st, .ok { success := false, error := some ("Unknown action: " ++ action) })

/-! ## Concrete instances used by witnesses and counterexamples -/

/-- The `"type"` field of a yielded event dict. -/
def Event.etype : Event → String
  | .error_list _ _ => "error"
  | .started _ _ => "started"
  | .cancelled _ _ => "cancelled"
  | .step_skipped _ _ => "step_skipped"
  | .step_started _ _ _ => "step_started"
  | .step_completed _ _ _ => "step_completed"
  | .step_timeout _ _ => "step_timeout"
  | .step_failed _ _ _ => "step_failed"
  | .paused _ _ _ => "paused"
  | .resumed _ _ _ => "resumed"
  | .completed _ _ _ => "completed"
  | .error_evt _ _ => "error"

/-- A fixed clock value for concrete runs. -/
def sampleTime : DTime := ⟨2024, 1, 2, 3, 4, 5, 0⟩

/-- A second clock value. -/
def sampleTime2 : DTime := ⟨2024, 1, 2, 3, 4, 6, 500⟩

/-- A unit of work that returns `{}` on every attempt. -/
def okSkill (nm : String) : SkillModel :=
  { name := nm, execute := fun _ => .ok [] }

/-- A unit of work that raises `Exception("boom")` on every attempt. -/
def failSkill (nm : String) : SkillModel :=
  { name := nm, execute := fun _ => .error "boom" }

/-- Registry with a succeeding `skillA`, an always-failing `skillB` and
a succeeding `skillC`. -/
def sampleRegistry : List (String × SkillModel) :=
  [("skillA", okSkill "skillA"), ("skillB", failSkill "skillB"),
   ("skillC", okSkill "skillC")]

/-- Step A: unit succeeds, `on_failure_action="skip"`. -/
def stepA : StepDefinition :=
  { name := "A", skill_name := "skillA", on_failure_action := some "skip" }

/-- Step B: unit always raises, `on_failure_action="stop"`. -/
def stepB : StepDefinition :=
  { name := "B", skill_name := "skillB", on_failure_action := some "stop" }

/-- Step C: unit succeeds. -/
def stepC : StepDefinition :=
  { name := "C", skill_name := "skillC" }

/-- The three-step pipeline A → B → C of the stop-on-failure scenario. -/
def wfABC : WorkflowDefinition :=
  { name := "wf", description := "demo"
    steps := [stepA, stepB, stepC]
    transitions := [{ from_step := "A", to_step := "B" }, { from_step := "B", to_step := "C" }] }

/-- The stop-on-failure scenario run (fresh engine, no external signals). -/
def runABC : List Event × WorkflowEngineSt × LoopExit :=
  WorkflowEngine.execute {} sampleRegistry wfABC {} "r1" {} sampleTime 20

/-- A single-step pipeline around the always-failing step B. -/
def wfStop : WorkflowDefinition :=
  { name := "wfStop", description := "demo", steps := [stepB] }

/-- Its run. -/
def runStop : List Event × WorkflowEngineSt × LoopExit :=
  WorkflowEngine.execute {} sampleRegistry wfStop {} "r2" {} sampleTime 20

/-- The same pipeline with a `cancel_execution` delivered before the
first loop iteration. -/
def runCancelled : List Event × WorkflowEngineSt × LoopExit :=
  WorkflowEngine.execute {} sampleRegistry wfStop {} "r3"
    { cancelAt := fun i => i = 0 } sampleTime 20

/-- A definition referencing an unregistered unit of work. -/
def invalidWf : WorkflowDefinition :=
  { name := "wfbad", description := "demo"
    steps := [{ name := "a", skill_name := "nonexistent" }] }

/-- Context with `shared_state = {"tier": "gold"}`. -/
def sampleTierCtx : ExecutionContext :=
  { workflow_id := "wf", execution_id := "run-1"
    started_at := sampleTime, updated_at := sampleTime
    shared_state := [("tier", PyValue.str "gold")] }

/-- The step of the C4 counterexample: `max_retries = 5` on a step whose
unit of work (`skillB`, `retry_count = 3`) always fails. -/
def cexStep : StepDefinition :=
  { name := "B", skill_name := "skillB", max_retries := 5, on_failure_action := some "stop" }

/-- A freshly started (RUNNING) execution of `wfStop`. -/
def runningExec : WorkflowExecution :=
  (WorkflowExecution.make "r1" wfStop {} sampleTime).start sampleTime

/-- Engine state holding that live run under id `"r1"`. -/
def liveEngineSt : WorkflowEngineSt :=
  { executions := [("r1", runningExec)] }

/-- A COMPLETED (terminal) execution, and an engine state holding it. -/
def completedExec : WorkflowExecution :=
  runningExec.complete sampleTime

/-- Engine state with the terminal run under id `"rT"`. -/
def terminalEngineSt : WorkflowEngineSt :=
  { executions := [("rT", completedExec)] }

/-- A custom-condition step whose `condition_expression` is the empty
string (present but falsy for the `if step.condition_expression:` check). -/
def emptyExprStep : StepDefinition :=
  { name := "E", skill_name := "skillA", condition := .custom
    condition_expression := some "" }

/-- A custom-condition step with a present, non-empty, unparsable
expression. -/
def garbageExprStep : StepDefinition :=
  { name := "G", skill_name := "skillA", condition := .custom
    condition_expression := some "garbage" }

/-- Single-step pipeline around `garbageExprStep`. -/
def wfGarbage : WorkflowDefinition :=
  { name := "wfG", description := "demo", steps := [garbageExprStep] }

/-- Its run: the step is skipped. -/
def runGarbage : List Event × WorkflowEngineSt × LoopExit :=
  WorkflowEngine.execute {} sampleRegistry wfGarbage {} "r5" {} sampleTime 20

/-- A context round-trip sample with all three datetime fields set. -/
def sampleFullCtx : ExecutionContext :=
  { workflow_id := "wf", execution_id := "run-9"
    user_id := some 7
    current_step := some "B"
    step_history := [("skillA_start", "2024-01-02T03:04:05")]
    input_data := [("k", PyValue.int 3)]
    output_data := [("A", PyValue.dict [("ok", PyValue.bool true)])]
    shared_state := [("tier", PyValue.str "gold")]
    started_at := ⟨2024, 5, 17, 10, 30, 0, 123456⟩
    updated_at := ⟨2024, 5, 17, 10, 30, 1, 0⟩
    completed_at := some ⟨2024, 12, 31, 23, 59, 59, 999999⟩
    status := "completed"
    error_message := Option.none
    interrupted := false
    metrics := [("count", 2)] }

/-! ## Supporting lemmas -/

theorem evaluate_condition_no_operator (e : String) (ctx : ExecutionContext)
    (h1 : containsSub eqPat (pyStripList e.data) = false)
    (h2 : containsSub nePat (pyStripList e.data) = false)
    (h3 : containsSub inPat (pyStripList e.data) = false)
    (h4 : containsSub containsPat (pyStripList e.data) = false) :
    evaluate_condition e ctx = false := by
  unfold evaluate_condition
  simp [h1, h2, h3, h4]

theorem padDigits_length (w n : Nat) : (padDigits w n).length = w := by
  induction w generalizing n with
  | zero => rfl
  | succ w ih => simp [padDigits, ih]

theorem DTime.isoformat_ne_empty (d : DTime) : d.isoformat ≠ "" := by
  intro hcontra
  have hdata : d.isoformatList = [] := congrArg String.data hcontra
  have hlen := congrArg List.length hdata
  simp only [DTime.isoformatList, List.length_append, List.length_cons,
    padDigits_length, List.length_nil] at hlen
  omega

/-! ### Round-trip lemmas for the datetime serialization -/

theorem digitVal?_digitChar : ∀ d < 10, digitVal? (digitChar d) = some d := by decide

theorem parseFixed_padDigits :
    ∀ (w : Nat) (k acc n : Nat) (rest : List Char), n < 10 ^ w →
      parseFixed (w + k) acc (padDigits w n ++ rest) = parseFixed k (acc * 10 ^ w + n) rest := by
  intro w
  induction w with
  | zero =>
    intro k acc n rest hn
    interval_cases n
    simp [padDigits, parseFixed]
  | succ w ih =>
    intro k acc n rest hn
    have hdiv : n / 10 < 10 ^ w := by
      apply Nat.div_lt_of_lt_mul
      calc n < 10 ^ (w + 1) := hn
        _ = 10 * 10 ^ w := by rw [pow_succ']
    have hstep : w + 1 + k = w + (k + 1) := by omega
    rw [padDigits, List.append_assoc, List.cons_append, List.nil_append, hstep,
      ih (k + 1) acc (n / 10) (digitChar (n % 10) :: rest) hdiv]
    rw [parseFixed, digitVal?_digitChar (n % 10) (Nat.mod_lt n (by omega))]
    show parseFixed k ((acc * 10 ^ w + n / 10) * 10 + n % 10) rest =
      parseFixed k (acc * 10 ^ (w + 1) + n) rest
    congr 1
    have hn' : n / 10 * 10 + n % 10 = n := by omega
    calc (acc * 10 ^ w + n / 10) * 10 + n % 10
        = acc * (10 ^ w * 10) + (n / 10 * 10 + n % 10) := by ring
      _ = acc * 10 ^ (w + 1) + n := by rw [← pow_succ, hn']

theorem parseFixed_padDigits0 {w n : Nat} (rest : List Char) (hn : n < 10 ^ w) :
    parseFixed w 0 (padDigits w n ++ rest) = some (n, rest) := by
  have := parseFixed_padDigits w 0 0 n rest hn
  simpa [parseFixed] using this

theorem expectChar_cons (c : Char) (rest : List Char) :
    expectChar c (c :: rest) = some rest := by
  simp [expectChar]

set_option maxHeartbeats 4000000 in
/-- Model of `fromisoformat` is a left inverse of `isoformat` on every valid
datetime (Python's documented round-trip guarantee for naive datetimes). -/
theorem DTime.fromisoformat_isoformat (d : DTime) (hv : d.Valid) :
    DTime.fromisoformat d.isoformat = some d := by
  obtain ⟨y, mo, dy, h, mi, s, us⟩ := d
  simp only [DTime.Valid] at hv
  obtain ⟨hy1, hy2, hm1, hm2, hd1, hd2, hh, hmi, hs, hus⟩ := hv
  simp only [DTime.fromisoformat, DTime.isoformat, DTime.isoformatList]
  rw [DTime.fromisoformatList]
  simp only [List.append_assoc, List.cons_append]
  rw [parseFixed_padDigits0 _ (by omega : y < 10 ^ 4)]
  simp only [Option.bind_eq_bind, Option.some_bind]
  rw [expectChar_cons]
  simp only [Option.some_bind]
  rw [parseFixed_padDigits0 _ (by omega : mo < 10 ^ 2)]
  simp only [Option.some_bind]
  rw [expectChar_cons]
  simp only [Option.some_bind]
  rw [parseFixed_padDigits0 _ (by omega : dy < 10 ^ 2)]
  simp only [Option.some_bind]
  rw [expectChar_cons]
  simp only [Option.some_bind]
  rw [parseFixed_padDigits0 _ (by omega : h < 10 ^ 2)]
  simp only [Option.some_bind]
  rw [expectChar_cons]
  simp only [Option.some_bind]
  rw [parseFixed_padDigits0 _ (by omega : mi < 10 ^ 2)]
  simp only [Option.some_bind]
  rw [expectChar_cons]
  simp only [Option.some_bind]
  rw [parseFixed_padDigits0 _ (by omega : s < 10 ^ 2)]
  simp only [Option.some_bind]
  by_cases hzero : us = 0
  · subst hzero
    rw [if_pos rfl]
  · rw [if_neg hzero]
    have h6 := parseFixed_padDigits0 ([] : List Char) (by omega : us < 10 ^ 6)
    simp only [List.append_nil] at h6
    simp [h6]

theorem alistGet_alistSet {α : Type} (d : List (String × α)) (k : String) (v : α) :
    alistGet (alistSet d k v) k = some v := by
  induction d with
  | nil => simp [alistSet, alistGet, List.find?]
  | cons e rest ih =>
    by_cases hk : e.1 = k
    · simp [alistSet, hk, alistGet, List.find?]
    · simpa [alistSet, hk, alistGet, List.find?] using ih

theorem runAttemptLoop_allFail (s : SkillModel) (ctx : ExecutionContext) (now : DTime)
    (hfail : ∀ i, ∃ m, s.execute i = .error m) :
    ∀ (fuel attempt : Nat) (le : Option String), attempt + fuel = s.retry_count + 1 →
      (runAttemptLoop s now ctx attempt fuel le).attempts = fuel
      ∧ (runAttemptLoop s now ctx attempt fuel le).sleeps
          = (List.range' attempt (fuel - 1)).map (fun a => s.retry_delay * 2 ^ a)
      ∧ ∃ m, (runAttemptLoop s now ctx attempt fuel le).result = .error m := by
  intro fuel
  induction fuel with
  | zero =>
    intro attempt le _
    exact ⟨rfl, rfl, ⟨le.getD "Skill execution failed", rfl⟩⟩
  | succ f ih =>
    intro attempt le h
    obtain ⟨m, hm⟩ := hfail attempt
    simp only [runAttemptLoop, hm]
    by_cases hlt : attempt < s.retry_count
    · rw [if_pos hlt]
      have hf1 : 1 ≤ f := by omega
      obtain ⟨f', rfl⟩ : ∃ f', f = f' + 1 := ⟨f - 1, by omega⟩
      have hih := ih (attempt + 1) (some m) (by omega)
      refine ⟨by simp [hih.1], ?_, hih.2.2⟩
      rw [hih.2.1]
      simp [List.range']
    · rw [if_neg hlt]
      have hf : f = 0 := by omega
      subst hf
      exact ⟨rfl, rfl, ⟨m, rfl⟩⟩

/-! ## Claim theorems -/

/-- Claim C1 (code bug): in the stop-on-failure scenario — pipeline A, B, C
with transitions A→B and B→C, A's unit succeeding and B's unit always
raising with `on_failure_action="stop"` — the claim says the stream ends
`step_started(B), step_failed(B)` with final status FAILED and C never
started.  The code instead crashes in `_get_next_step` right after A
completes (the transition map holds plain strings, so
`transition.condition` raises `AttributeError`, which the `try` around
the step body catches as a failure of A): the stream is
`started, step_started(A), step_completed(A), step_failed(A), error`,
exactly one step ever starts (A), and step B — let alone C — is never
started.  The run does end FAILED, but from the lookup crash, not from B. -/
theorem claim_C1_stop_on_failure :
    runABC.1 =
      [.started "r1" "running",
       .step_started "r1" "A" "skillA",
       .step_completed "r1" "A" [],
       .step_failed "r1" "A" "\x27str\x27 object has no attribute \x27condition\x27",
       .error_evt "r1" "\x27str\x27 object has no attribute \x27condition\x27"]
    ∧ ((alistGet runABC.2.1.executions "r1").map fun ex => ex.status)
        = some .failed
    ∧ runABC.1.countP (fun ev => ev.etype == "step_started") = 1
    ∧ runABC.1.countP (fun ev =>
        match ev with
        | .step_started _ st _ => st == "B" || st == "C"
        | _ => false) = 0 :=
  ⟨rfl, rfl, rfl, rfl⟩

/-- Claim C2 (code bug): terminal statuses are not final.  After the
`while` loop exits by `break` — whether because `fail` set FAILED under
`on_failure_action="stop"` or because a cancellation set CANCELLED —
the unconditional `execution.complete()` at the end of `execute`
overwrites the terminal status with COMPLETED and emits a `completed`
event: the status assignment history of the stop-run is
`PENDING, RUNNING, FAILED, COMPLETED` and of the cancelled run
`PENDING, RUNNING, CANCELLED, CANCELLED, COMPLETED`, both ending
COMPLETED. -/
theorem claim_C2_terminal_states_final :
    ((alistGet runStop.2.1.executions "r2").map fun ex => (ex.status_history, ex.status))
      = some ([.pending, .running, .failed, .completed], .completed)
    ∧ runStop.1.map Event.etype = ["started", "step_started", "step_failed", "completed"]
    ∧ ((alistGet runCancelled.2.1.executions "r3").map fun ex => (ex.status_history, ex.status))
      = some ([.pending, .running, .cancelled, .cancelled, .completed], .completed)
    ∧ runCancelled.1.map Event.etype = ["started", "cancelled", "completed"] :=
  ⟨rfl, rfl, rfl, rfl⟩

/-- Claim C3 (code bug): `_get_next_step` iterates over
`transition_map[current_step]`, whose elements are the `to_step`
*strings* the map was built from (`Dict[str, List[str]]` by its own
annotation), and immediately evaluates `transition.condition` on a
string: with any transition out of the current step the lookup raises
`AttributeError` instead of returning the transition's target; only
with no transitions does it return `None` without raising. -/
theorem claim_C3_transition_lookup :
    buildTransitionMap wfABC.steps wfABC.transitions
      = [("A", ["B"]), ("B", ["C"]), ("C", [])]
    ∧ get_next_step "A" (buildTransitionMap wfABC.steps wfABC.transitions) sampleTierCtx
      = .error "\x27str\x27 object has no attribute \x27condition\x27"
    ∧ get_next_step "C" (buildTransitionMap wfABC.steps wfABC.transitions) sampleTierCtx
      = .ok Option.none :=
  ⟨rfl, rfl, rfl⟩

/-- Claim C5 (confirmed): when `validate_definition` returns a non-empty
error list, `execute` yields exactly one `error` event carrying that
list, creates no run object and leaves the engine state untouched. -/
theorem claim_C5_invalid_definition_fails_fast
    (st : WorkflowEngineSt) (reg : List (String × SkillModel))
    (wf : WorkflowDefinition) (init : InitState) (eid : String)
    (sched : Schedule) (now : DTime) (fuel : Nat)
    (herr : validate_definition reg wf ≠ []) :
    WorkflowEngine.execute st reg wf init eid sched now fuel
      = ([.error_list eid (validate_definition reg wf)], st, .finished) := by
  unfold WorkflowEngine.execute
  simp [herr]

/-- Witness for C5: a definition referencing an unregistered unit of
work is rejected with the collected error list and no state change. -/
theorem claim_C5_invalid_definition_fails_fast_witness :
    WorkflowEngine.execute {} sampleRegistry invalidWf {} "r4" {} sampleTime 20
      = ([.error_list "r4" (validate_definition sampleRegistry invalidWf)], {}, .finished) :=
  claim_C5_invalid_definition_fails_fast {} sampleRegistry invalidWf {} "r4" {}
    sampleTime 20 (by decide)

/-- Claim C7 (code bug): `handle_interrupt(..., "takeover", data)` begins
with `execution.pause("manual_takeover")`, but `WorkflowExecution.pause`
takes no reason argument (only `ExecutionContext.pause` does), so the
call raises `TypeError` before any effect: the run is not paused,
`shared_state` gains neither `manual_takeover` nor the data, and no
context is returned — none of the claimed behavior happens. -/
theorem claim_C7_takeover_interrupt :
    handle_interrupt liveEngineSt "r1" "takeover"
        (some [("extra", .str "v")]) sampleTime2
      = (liveEngineSt,
         .error "TypeError: pause() takes 1 positional argument but 2 were given")
    ∧ ((alistGet liveEngineSt.executions "r1").map fun ex =>
        (ex.status, ex.context.status,
         alistGet ex.context.shared_state "manual_takeover",
         alistGet ex.context.shared_state "extra"))
      = some (.running, "running", Option.none, Option.none) :=
  ⟨rfl, rfl⟩

/-- Claim C6 (confirmed): with `shared_state = {"tier": "gold"}`,
`state.tier == "gold"` is true, `state.tier != "gold"` is false and
`state.missing == "x"` is false; in general the `==` comparison is made
against the string representation of the stored value, a missing key
compares as `"None"` (`state.missing == "None"` is *true*; for
`contains` the default is the empty string, so nothing non-empty is
found in it), and an expression containing none of the four operators
evaluates to false — the function is total and never raises. -/
theorem claim_C6_condition_correctness :
    (evaluate_condition "state.tier == \x22gold\x22" sampleTierCtx = true
      ∧ evaluate_condition "state.tier != \x22gold\x22" sampleTierCtx = false
      ∧ evaluate_condition "state.missing == \x22x\x22" sampleTierCtx = false)
    ∧ (∀ ctx : ExecutionContext,
        evaluate_condition "state.tier == \x22gold\x22" ctx
          = (pyStr (ctx.get_state "tier" PyValue.none) == "gold"))
    ∧ (∀ ctx : ExecutionContext,
        alistGet ctx.shared_state "missing" = Option.none →
          evaluate_condition "state.missing == \x22None\x22" ctx = true
          ∧ evaluate_condition "state.missing contains \x22x\x22" ctx = false)
    ∧ (∀ (e : String) (ctx : ExecutionContext),
        containsSub eqPat (pyStripList e.data) = false →
        containsSub nePat (pyStripList e.data) = false →
        containsSub inPat (pyStripList e.data) = false →
        containsSub containsPat (pyStripList e.data) = false →
        evaluate_condition e ctx = false) := by
  refine ⟨⟨by decide, by decide, by decide⟩, fun ctx => rfl, ?_,
    evaluate_condition_no_operator⟩
  intro ctx h
  constructor
  · have e1 : evaluate_condition "state.missing == \x22None\x22" ctx
        = (pyStr (ctx.get_state "missing" PyValue.none) == "None") := rfl
    rw [e1]
    simp [ExecutionContext.get_state, h, pyStr, pyRepr]
  · have e2 : evaluate_condition "state.missing contains \x22x\x22" ctx
        = containsSub "x".data (pyStr (ctx.get_state "missing" (PyValue.str ""))).data := rfl
    rw [e2]
    simp [ExecutionContext.get_state, h, pyStr]
    decide

/-- Witness for C6: the quantified parts instantiated — a missing key
compares equal to `"None"`, finds nothing under `contains`, and an
operator-free expression evaluates to false. -/
theorem claim_C6_condition_correctness_witness :
    evaluate_condition "state.missing == \x22None\x22" sampleTierCtx = true
    ∧ evaluate_condition "state.missing contains \x22x\x22" sampleTierCtx = false
    ∧ evaluate_condition "tier is golden" sampleTierCtx = false :=
  ⟨(claim_C6_condition_correctness.2.2.1 sampleTierCtx rfl).1,
   (claim_C6_condition_correctness.2.2.1 sampleTierCtx rfl).2,
   claim_C6_condition_correctness.2.2.2 "tier is golden" sampleTierCtx rfl rfl rfl rfl⟩

/-- Counterexample for claim C10: the empty string is a *present*
(`condition_expression = some ""`) and unparsable expression, yet the
truthiness check `if step.condition_expression:` treats it like an
absent one: the step executes (condition true) instead of being
skipped. -/
theorem claim_C10_counterexample :
    emptyExprStep.condition_expression = some ""
    ∧ evaluate_condition "" sampleTierCtx = false
    ∧ should_execute_step emptyExprStep runningExec = true :=
  ⟨rfl, by decide, by decide⟩

/-- Claim C10 (amended): a custom-condition step executes unconditionally
when its `condition_expression` is `None` *or the empty string* (the
source checks Python truthiness, not `is None`); a present non-empty
expression in which none of the four operators occurs evaluates to
false and the step is skipped (shown on the concrete run: the step is
skipped, never started, and the run completes). -/
theorem claim_C10_custom_condition (step : StepDefinition) (ex : WorkflowExecution)
    (hc : step.condition = .custom) :
    (step.condition_expression = Option.none → should_execute_step step ex = true)
    ∧ (step.condition_expression = some "" → should_execute_step step ex = true)
    ∧ (∀ e : String, step.condition_expression = some e → e ≠ "" →
        containsSub eqPat (pyStripList e.data) = false →
        containsSub nePat (pyStripList e.data) = false →
        containsSub inPat (pyStripList e.data) = false →
        containsSub containsPat (pyStripList e.data) = false →
        should_execute_step step ex = false)
    ∧ runGarbage.1.map Event.etype = ["started", "step_skipped", "completed"]
    ∧ runGarbage.1.countP (fun ev => ev.etype == "step_started") = 0 := by
  refine ⟨?_, ?_, ?_, rfl, rfl⟩
  · intro h
    simp [should_execute_step, hc, h]
  · intro h
    simp [should_execute_step, hc, h]
  · intro e he hne h1 h2 h3 h4
    simp [should_execute_step, hc, he, hne,
      evaluate_condition_no_operator e ex.context h1 h2 h3 h4]

/-- Witness for C10: the unparsable-expression step is not executed. -/
theorem claim_C10_custom_condition_witness :
    should_execute_step garbageExprStep runningExec = false :=
  (claim_C10_custom_condition garbageExprStep runningExec rfl).2.2.1 "garbage" rfl
    (by decide) rfl rfl rfl rfl

/-- Counterexample for claim C8: `pause_execution` on a run whose status
is already terminal (COMPLETED) does not leave it unchanged — the
status becomes PAUSED (there is no terminal-state guard). -/
theorem claim_C8_counterexample :
    ((alistGet terminalEngineSt.executions "rT").map fun ex => ex.status)
      = some .completed
    ∧ ((alistGet (WorkflowEngine.pause_execution terminalEngineSt "rT"
          sampleTime2).executions "rT").map fun ex => ex.status)
      = some .paused :=
  ⟨rfl, rfl⟩

/-- Claim C8 (amended): pause/resume/cancel with an unknown run id leave
the engine state unchanged; on a known run each operation sets its
status unconditionally — including on terminal runs — and a second
identical call is idempotent on the status and on every context field
except the `updated_at` timestamp (`cancel` touches no context field at
all). -/
theorem claim_C8_lifecycle_ops (st : WorkflowEngineSt) (eid : String)
    (t1 t2 : DTime) (ex : WorkflowExecution) :
    (alistGet st.executions eid = Option.none →
      WorkflowEngine.pause_execution st eid t1 = st
      ∧ WorkflowEngine.resume_execution st eid t1 = st
      ∧ WorkflowEngine.cancel_execution st eid t1 = st)
    ∧ (alistGet st.executions eid = some ex →
      ((alistGet (WorkflowEngine.pause_execution st eid t1).executions eid).map
          fun e2 => e2.status) = some .paused
      ∧ ((alistGet (WorkflowEngine.resume_execution st eid t1).executions eid).map
          fun e2 => e2.status) = some .running
      ∧ ((alistGet (WorkflowEngine.cancel_execution st eid t1).executions eid).map
          fun e2 => e2.status) = some .cancelled)
    ∧ ((ex.pause t1).pause t2).status = (ex.pause t1).status
    ∧ ((ex.pause t1).pause t2).context = (ex.pause t2).context
    ∧ ((ex.resume t1).resume t2).status = (ex.resume t1).status
    ∧ ((ex.resume t1).resume t2).context = (ex.resume t2).context
    ∧ ex.cancel.cancel.status = ex.cancel.status
    ∧ ex.cancel.cancel.context = ex.context := by
  refine ⟨?_, ?_, rfl, rfl, rfl, rfl, rfl, rfl⟩
  · intro h
    refine ⟨?_, ?_, ?_⟩ <;>
      simp [WorkflowEngine.pause_execution, WorkflowEngine.resume_execution,
        WorkflowEngine.cancel_execution, h]
  · intro h
    refine ⟨?_, ?_, ?_⟩ <;>
      simp [WorkflowEngine.pause_execution, WorkflowEngine.resume_execution,
        WorkflowEngine.cancel_execution, h, alistGet_alistSet,
        WorkflowExecution.pause, WorkflowExecution.resume, WorkflowExecution.cancel]

/-- Witness for C8: an unknown id is a no-op on an empty engine; pausing
the live run `"r1"` sets its status to PAUSED. -/
theorem claim_C8_lifecycle_ops_witness :
    WorkflowEngine.pause_execution {} "nope" sampleTime = {}
    ∧ ((alistGet (WorkflowEngine.pause_execution liveEngineSt "r1"
          sampleTime2).executions "r1").map fun e2 => e2.status) = some .paused :=
  ⟨((claim_C8_lifecycle_ops {} "nope" sampleTime sampleTime2 runningExec).1 rfl).1,
   ((claim_C8_lifecycle_ops liveEngineSt "r1" sampleTime2 sampleTime runningExec).2.1 rfl).1⟩

/-- Counterexample for claim C4: a step with `max_retries = 5` whose unit
of work (`skillB`, `retry_count = 3`) always fails — the unit is
invoked 4 times (`retry_count + 1`), not `max_retries + 1 = 6`; the
engine never passes the step's `max_retries` to the unit. -/
theorem claim_C4_counterexample :
    registryGet sampleRegistry cexStep.skill_name = some (failSkill "skillB")
    ∧ ((failSkill "skillB").run sampleTierCtx sampleTime).attempts = 4
    ∧ cexStep.max_retries + 1 = 6
    ∧ ((failSkill "skillB").run sampleTierCtx sampleTime).attempts
        ≠ cexStep.max_retries + 1 :=
  ⟨rfl, rfl, rfl, by decide⟩

/-- Claim C4 (amended): for a unit of work that fails on every attempt
(and whose input validates), `run` invokes `execute` exactly the
*unit's* `retry_count + 1` times — the step definition's `max_retries`
is never consulted — with each retry preceded by a backoff sleep of
`retry_delay * 2 ^ attempt`, and the error is re-raised; the engine
emits exactly one `step_failed` event for the whole attempt cycle
(shown on the concrete stop-run). -/
theorem claim_C4_retry_bound (s : SkillModel) (ctx : ExecutionContext) (now : DTime)
    (hfail : ∀ i, ∃ m, s.execute i = .error m)
    (hin : s.validate_input ctx.input_data = true) :
    (s.run ctx now).attempts = s.retry_count + 1
    ∧ (s.run ctx now).sleeps
        = (List.range s.retry_count).map (fun a => s.retry_delay * 2 ^ a)
    ∧ (∃ m, (s.run ctx now).result = .error m)
    ∧ runStop.1.countP (fun ev => ev.etype == "step_failed") = 1 := by
  have hrun : s.run ctx now
      = runAttemptLoop s now (s.on_start ctx now) 0 (s.retry_count + 1) Option.none := by
    unfold SkillModel.run
    rw [hin]
    simp
  have h := runAttemptLoop_allFail s (s.on_start ctx now) now hfail
    (s.retry_count + 1) 0 Option.none (by omega)
  rw [hrun]
  refine ⟨h.1, ?_, h.2.2, rfl⟩
  rw [h.2.1]
  simp [List.range_eq_range']

/-- Witness for C4 (amended): the always-failing `skillB` with default
knobs attempts 4 times with sleeps `[1, 2, 4]`. -/
theorem claim_C4_retry_bound_witness :
    ((failSkill "skillB").run sampleTierCtx sampleTime).attempts
        = (failSkill "skillB").retry_count + 1
    ∧ ((failSkill "skillB").run sampleTierCtx sampleTime).sleeps
        = (List.range (failSkill "skillB").retry_count).map
            (fun a => (failSkill "skillB").retry_delay * 2 ^ a)
    ∧ (∃ m, ((failSkill "skillB").run sampleTierCtx sampleTime).result = .error m)
    ∧ runStop.1.countP (fun ev => ev.etype == "step_failed") = 1 :=
  claim_C4_retry_bound (failSkill "skillB") sampleTierCtx sampleTime
    (fun _ => ⟨"boom", rfl⟩) rfl

/-- Claim C9 (confirmed): `from_dict ∘ to_dict` is the identity on every
context whose datetime fields are valid datetimes — every field,
including `started_at`, `updated_at` and `completed_at`, is recovered
exactly. -/
theorem claim_C9_context_roundtrip (ctx : ExecutionContext)
    (h1 : ctx.started_at.Valid) (h2 : ctx.updated_at.Valid)
    (h3 : ∀ d, ctx.completed_at = some d → d.Valid) :
    ExecutionContext.from_dict ctx.to_dict = some ctx := by
  have hne1 := DTime.isoformat_ne_empty ctx.started_at
  have hne2 := DTime.isoformat_ne_empty ctx.updated_at
  have hr1 := DTime.fromisoformat_isoformat ctx.started_at h1
  have hr2 := DTime.fromisoformat_isoformat ctx.updated_at h2
  cases hc : ctx.completed_at with
  | none =>
    simp [ExecutionContext.from_dict, ExecutionContext.to_dict, hne1, hne2, hr1, hr2, hc]
    rw [← hc]
  | some d =>
    have hrd := DTime.fromisoformat_isoformat d (h3 d hc)
    simp [ExecutionContext.from_dict, ExecutionContext.to_dict, hne1, hne2, hr1, hr2, hc,
      DTime.isoformat_ne_empty d, hrd]
    rw [← hc]

/-- Witness for C9: the fully populated sample context round-trips. -/
theorem claim_C9_context_roundtrip_witness :
    ExecutionContext.from_dict sampleFullCtx.to_dict = some sampleFullCtx :=
  claim_C9_context_roundtrip sampleFullCtx (by decide) (by decide)
    (fun d hd => by
      rw [← Option.some.inj hd]
      decide)

end Engine
